import Mathlib

/-!
Verification of the ArtesanApp inventory manager (src/artesanApp.py).

The embedding models the persistence layer (the sqlite table of products)
as a list of rows plus the next auto-increment id, and the presentation
sync handlers (on_guardar, mostrar_todos, on_buscar, on_eliminar) as pure
functions on an application state.  Python string helpers (strip, lower,
the `in` substring test, int() and float() conversion) are embedded as
executable functions on lists of characters.  Python floats are modelled
as exact decimal values (an integer mantissa times a power of ten), the
usual idealization of binary floating point; "inf", "nan", underscore
digit separators and non-ASCII digits are not modelled.  Storage faults
(sqlite exceptions) are modelled by an explicit boolean fault flag: the
fault-free run is the normal path, and a set flag makes every statement
of the affected call raise, which the source catches and turns into a
False return value.
-/

/-- Python str.strip: drop whitespace from both ends. -/
def pyStrip (s : String) : String :=
  String.mk (((s.data.dropWhile Char.isWhitespace).reverse.dropWhile Char.isWhitespace).reverse)

/-- Python str.lower (ASCII range, which covers the app's fixed tokens). -/
def pyLower (s : String) : String :=
  String.mk (s.data.map Char.toLower)

/-- Does `needle` occur at the start of `hay`? (helper for the `in` test). -/
def startsList : List Char → List Char → Bool
  | [], _ => true
  | _ :: _, [] => false
  | a :: as, b :: bs => (a == b) && startsList as bs

/-- Does `needle` occur anywhere in `hay`? (helper for the `in` test). -/
def hasSub (needle : List Char) : List Char → Bool
  | [] => startsList needle []
  | b :: bs => startsList needle (b :: bs) || hasSub needle bs

/-- Python `needle in hay` on strings: substring containment. -/
def pyIn (needle hay : String) : Bool :=
  hasSub needle.data hay.data

/-- Decimal digit test. -/
def isDigitCh (c : Char) : Bool :=
  48 ≤ c.toNat && c.toNat ≤ 57

/-- Value of a list of decimal digits, most significant first. -/
def digitsVal (ds : List Char) : Nat :=
  ds.foldl (fun a c => a * 10 + (c.toNat - 48)) 0

/-- Strip an optional leading sign, returning the sign as ±1. -/
def splitSign : List Char → Int × List Char
  | '-' :: rest => (-1, rest)
  | '+' :: rest => (1, rest)
  | cs => (1, cs)

/-- Python int(s): optional surrounding whitespace, optional sign, digits. -/
def pyInt (s : String) : Option Int :=
  let cs := (pyStrip s).data
  let sgd := splitSign cs
  if sgd.2 ≠ [] ∧ sgd.2.all isDigitCh then some (sgd.1 * digitsVal sgd.2) else none

/-- A Python float, modelled as the exact decimal value mant * 10 ^ exp10. -/
structure PyFloat where
  mant : Int
  exp10 : Int
  deriving Repr, DecidableEq

/-- Python float(s): optional whitespace and sign, then digits with an
optional decimal point (at least one digit overall), then an optional
exponent part introduced by e or E. -/
def pyFloat (s : String) : Option PyFloat :=
  let cs := (pyStrip s).data
  let sgd := splitSign cs
  let mantExp := sgd.2.span (fun c => ¬ (c == 'e' || c == 'E'))
  let expOpt : Option Int :=
    match mantExp.2 with
    | [] => some 0
    | _ :: ecs =>
      let esgd := splitSign ecs
      if esgd.2 ≠ [] ∧ esgd.2.all isDigitCh then some (esgd.1 * digitsVal esgd.2) else none
  match expOpt with
  | none => none
  | some e =>
    let ipFp := mantExp.1.span isDigitCh
    let fpOpt : Option (List Char) :=
      match ipFp.2 with
      | [] => if ipFp.1 = [] then none else some []
      | '.' :: fcs =>
        if fcs.all isDigitCh ∧ (ipFp.1 ≠ [] ∨ fcs ≠ []) then some fcs else none
      | _ => none
    match fpOpt with
    | none => none
    | some fcs => some ⟨sgd.1 * digitsVal (ipFp.1 ++ fcs), e - fcs.length⟩

/-- Ten to a natural power, over the integers. -/
def pow10i : Nat → Int
  | 0 => 1
  | n + 1 => pow10i n * 10

/-- Round n / d (d positive) to the nearest integer, ties to even:
the rounding used when formatting a value with a fixed number of
decimal places. -/
def rdiv2even (n d : Int) : Int :=
  let f : Int := n.ediv d
  let r : Int := n.emod d
  if 2 * r < d then f
  else if d < 2 * r then f + 1
  else if f % 2 = 0 then f else f + 1

/-- The integer nearest to value * 100, ties to even. -/
def scaled100 (x : PyFloat) : Int :=
  if 0 ≤ x.exp10 + 2 then x.mant * pow10i (x.exp10 + 2).toNat
  else rdiv2even x.mant (pow10i (-(x.exp10 + 2)).toNat)

/-- Python f-string formatting with :.2f — the sign, the integer part,
a point and exactly two fractional digits. -/
def format2f (x : PyFloat) : String :=
  let k : Int := scaled100 x
  let m : Nat := k.natAbs
  let sign : String := if k < 0 then "-" else ""
  let frac : String := String.mk [Char.ofNat (48 + (m % 100) / 10), Char.ofNat (48 + m % 10)]
  sign ++ toString (m / 100) ++ "." ++ frac

/-- One row of the productos table (schema of init_db in the source). -/
structure Product where
  id : Nat
  nombre : String
  categoria : String
  precio : PyFloat
  stock : Int
  disponible : Int
  proveedor : String
  tipo_envio : String
  deriving Repr, DecidableEq

/-- The data tuple passed to insertar_producto: all columns but the id. -/
structure ProductInput where
  nombre : String
  categoria : String
  precio : PyFloat
  stock : Int
  disponible : Int
  proveedor : String
  tipo_envio : String
  deriving Repr, DecidableEq

/-- The database: the stored rows in insertion order, plus the next value
of the AUTOINCREMENT id counter. -/
structure DB where
  rows : List Product
  nextId : Nat
  deriving Repr, DecidableEq

/-- init_db: fresh database, no rows, ids start at 1. -/
def init_db : DB := ⟨[], 1⟩

/-- insertar_producto: appends one row with a freshly assigned id and
returns True; on a storage fault the exception is caught, nothing is
stored, and False is returned. -/
def insertar_producto (fault : Bool) (data : ProductInput) (db : DB) : Bool × DB :=
  if fault then (false, db)
  else
    (true,
      ⟨db.rows ++ [⟨db.nextId, data.nombre, data.categoria, data.precio, data.stock,
          data.disponible, data.proveedor, data.tipo_envio⟩],
        db.nextId + 1⟩)

/-- consultar_todos: SELECT of every row, in storage order. -/
def consultar_todos (db : DB) : List Product :=
  db.rows

/-- eliminar_producto: DELETE FROM productos WHERE id = ?, returning True
whenever the statement completes (also when no row matched); on a storage
fault the exception is caught and False is returned. -/
def eliminar_producto (fault : Bool) (producto_id : Nat) (db : DB) : Bool × DB :=
  if fault then (false, db)
  else (true, ⟨db.rows.filter (fun p => p.id != producto_id), db.nextId⟩)

/-- Invariant maintained by the store: ids are pairwise distinct and below
the auto-increment counter. -/
def dbInv (db : DB) : Prop :=
  (db.rows.map Product.id).Nodup ∧ ∀ p ∈ db.rows, p.id < db.nextId

/-- The fixed category values offered by the read-only combobox. -/
def categorias : List String :=
  ["Decoración", "Joyería", "Textil", "Papelería", "Otros"]

/-- The form's tkinter variables: four entry strings, the checkbox int,
the supplier entry and the shipping-type radio value. -/
structure Form where
  nombre_var : String
  categoria_var : String
  precio_var : String
  stock_var : String
  disponible_var : Int
  proveedor_var : String
  tipo_envio_var : String
  deriving Repr, DecidableEq

/-- limpiar_form: every text field cleared, disponible back to 1,
shipping type back to Local. -/
def limpiar_form (_ : Form) : Form :=
  ⟨"", "", "", "", 1, "", "Local"⟩

/-- One row of the Treeview: the values tuple built by mostrar_todos. -/
structure DisplayRow where
  id : Nat
  nombre : String
  categoria : String
  precio : String
  stock : Int
  disponible : String
  proveedor : String
  tipo_envio : String
  deriving Repr, DecidableEq

/-- The values tuple inserted into the tree for one stored row: price
rendered with :.2f, disponible rendered as a yes/no token. -/
def displayRow (row : Product) : DisplayRow :=
  ⟨row.id, row.nombre, row.categoria, format2f row.precio, row.stock,
    if row.disponible = 1 then "Sí" else "No", row.proveedor, row.tipo_envio⟩

/-- mostrar_todos: clear the tree and re-fill it with every stored row. -/
def mostrar_todos (db : DB) : List DisplayRow :=
  (consultar_todos db).map displayRow

/-- on_buscar: the rows shown after a search — every stored row whose
lower-cased name contains the stripped, lower-cased query. -/
def on_buscar (search_var : String) (db : DB) : List DisplayRow :=
  let q := pyLower (pyStrip search_var)
  ((consultar_todos db).filter (fun row => pyIn q (pyLower row.nombre))).map displayRow

/-- The messagebox calls a handler can make. -/
inductive Msg where
  | warning (title body : String)
  | error (title body : String)
  | info (title body : String)
  deriving Repr, DecidableEq

/-- The database calls a handler can make. -/
inductive StoreCall where
  | insertCall (data : ProductInput)
  | deleteCall (producto_id : Nat)
  deriving Repr, DecidableEq

/-- The window state the handlers read and write: the form variables, the
search variable, the tree contents and (through the store functions) the
database. -/
structure AppState where
  form : Form
  search_var : String
  tree : List DisplayRow
  db : DB
  deriving Repr, DecidableEq

/-- on_guardar: strip the form fields; reject empty required fields with a
warning; parse price as float and stock as int, rejecting with an error
message if either fails; otherwise call insertar_producto and, on True,
show the success message, clear the form and re-list everything.  Returns
the new state, the messageboxes shown and the store calls made. -/
def on_guardar (fault : Bool) (st : AppState) : AppState × List Msg × List StoreCall :=
  let nombre := pyStrip st.form.nombre_var
  let categoria := pyStrip st.form.categoria_var
  let precio := pyStrip st.form.precio_var
  let stock := pyStrip st.form.stock_var
  let disponible : Int := if st.form.disponible_var = 0 then 0 else 1
  let proveedor := pyStrip st.form.proveedor_var
  let tipo_envio := st.form.tipo_envio_var
  if nombre = "" ∨ categoria = "" ∨ precio = "" ∨ stock = "" then
    (st, [Msg.warning "Validación" "Por favor complete los campos obligatorios."], [])
  else
    match pyFloat precio, pyInt stock with
    | some precio_f, some stock_i =>
      let data : ProductInput :=
        ⟨nombre, categoria, precio_f, stock_i, disponible, proveedor, tipo_envio⟩
      let res := insertar_producto fault data st.db
      if res.1 then
        (⟨limpiar_form st.form, st.search_var, mostrar_todos res.2, res.2⟩,
          [Msg.info "Éxito" "Producto guardado correctamente."],
          [StoreCall.insertCall data])
      else
        ({ st with db := res.2 }, [], [StoreCall.insertCall data])
    | _, _ =>
      (st, [Msg.error "Error" "Precio debe ser número y stock entero."], [])

/-- on_eliminar: warn if nothing is selected; otherwise ask for
confirmation and, if confirmed, call eliminar_producto with the selected
row's id, re-listing on True and showing an error message on False. -/
def on_eliminar (fault : Bool) (selected : Option DisplayRow) (confirm : Bool)
    (st : AppState) : AppState × List Msg × List StoreCall :=
  match selected with
  | none => (st, [Msg.warning "Atención" "Seleccione un producto para eliminar."], [])
  | some item =>
    if confirm then
      let res := eliminar_producto fault item.id st.db
      if res.1 then
        ({ st with db := res.2, tree := mostrar_todos res.2 },
          [Msg.info "Eliminado" "Producto eliminado correctamente."],
          [StoreCall.deleteCall item.id])
      else
        (st, [Msg.error "Error" "No se pudo eliminar el producto."],
          [StoreCall.deleteCall item.id])
    else (st, [], [])

/-- The tuple on_guardar builds from the stripped form fields once price
and stock have been converted. -/
def formData (st : AppState) (precio_f : PyFloat) (stock_i : Int) : ProductInput :=
  ⟨pyStrip st.form.nombre_var, pyStrip st.form.categoria_var, precio_f, stock_i,
    if st.form.disponible_var = 0 then 0 else 1,
    pyStrip st.form.proveedor_var, st.form.tipo_envio_var⟩

/-- The row the store creates for a given input tuple: the input's fields
under the next auto-increment id. -/
def newRow (db : DB) (d : ProductInput) : Product :=
  ⟨db.nextId, d.nombre, d.categoria, d.precio, d.stock, d.disponible,
    d.proveedor, d.tipo_envio⟩

/-- A filled form over an empty database (used to exercise the insert path). -/
def stW1 : AppState :=
  ⟨⟨"Collar artesanal", "Joyería", "45000", "10", 1, "Artesanos Unidos", "Nacional"⟩,
    "", [], init_db⟩

/-- A form whose price text does not parse (used to exercise the type-failure path). -/
def stW3 : AppState :=
  ⟨⟨"Aretes", "Joyería", "abc", "3", 1, "", "Local"⟩, "", [], init_db⟩

/-- A valid form submitted while the storage is faulted. -/
def stFault5 : AppState :=
  ⟨⟨"Bolso tejido", "Textil", "80000", "4", 1, "Tejedoras", "Local"⟩, "", [], init_db⟩

/-- Another valid form submitted while the storage is faulted. -/
def stW10 : AppState :=
  ⟨⟨"Cuaderno", "Papelería", "12000", "20", 0, "", "Nacional"⟩,
    "buscar", [⟨9, "x", "y", "1.00", 1, "No", "", "Local"⟩], ⟨[], 7⟩⟩

/-- A form whose category string is not one of the combobox values. -/
def stBadCat : AppState :=
  ⟨⟨"Cesta", "Cerámica", "100", "5", 1, "", "Local"⟩, "", [], init_db⟩

/-- A valid form whose category is one of the combobox values. -/
def stW9 : AppState :=
  ⟨⟨"Tapete", "Decoración", "30000", "2", 1, "", "Local"⟩, "", [], init_db⟩

/-- A database with two stored rows, ids 1 and 2. -/
def dbW2 : DB :=
  ⟨[⟨1, "Collar artesanal", "Joyería", ⟨45000, 0⟩, 10, 1, "Artesanos Unidos", "Nacional"⟩,
    ⟨2, "Bolso tejido", "Textil", ⟨80000, 0⟩, 4, 0, "", "Local"⟩], 3⟩

/-- A stored row with a fractional price (used to exercise formatting). -/
def pW7 : Product := ⟨1, "Pulsera", "Joyería", ⟨125, -1⟩, 7, 1, "", "Local"⟩

/-- A one-row database holding that row. -/
def dbW7 : DB := ⟨[pW7], 2⟩

/-- A valid form over a one-row database, with that row selected in the
tree (used to exercise both mutations). -/
def stW8 : AppState :=
  ⟨⟨"Espejo", "Decoración", "55000", "1", 1, "", "Local"⟩, "", mostrar_todos dbW7, dbW7⟩

/-- The tree row selected in stW8. -/
def rowW8 : DisplayRow := displayRow pW7

theorem startsList_nil (l : List Char) : startsList [] l = true := by
  cases l <;> rfl

theorem hasSub_nil (l : List Char) : hasSub [] l = true := by
  induction l with
  | nil => rfl
  | cons b bs ih => simp [hasSub, startsList_nil]

theorem pyIn_empty (s : String) : pyIn "" s = true :=
  hasSub_nil s.data

theorem pyStrip_mem_categorias {s : String} (h : s ∈ categorias) : pyStrip s = s := by
  simp only [categorias, List.mem_cons, List.not_mem_nil, or_false] at h
  rcases h with rfl | rfl | rfl | rfl | rfl <;> decide

/-- on_guardar when a required field is empty after stripping. -/
theorem on_guardar_empty (fault : Bool) (st : AppState)
    (h : pyStrip st.form.nombre_var = "" ∨ pyStrip st.form.categoria_var = "" ∨
      pyStrip st.form.precio_var = "" ∨ pyStrip st.form.stock_var = "") :
    on_guardar fault st =
      (st, [Msg.warning "Validación" "Por favor complete los campos obligatorios."], []) := by
  simp only [on_guardar]
  rw [if_pos h]

/-- on_guardar when no required field is empty but a conversion fails. -/
theorem on_guardar_typefail (fault : Bool) (st : AppState)
    (hn : pyStrip st.form.nombre_var ≠ "") (hc : pyStrip st.form.categoria_var ≠ "")
    (hp : pyStrip st.form.precio_var ≠ "") (hs : pyStrip st.form.stock_var ≠ "")
    (hbad : pyFloat (pyStrip st.form.precio_var) = none ∨
      pyInt (pyStrip st.form.stock_var) = none) :
    on_guardar fault st =
      (st, [Msg.error "Error" "Precio debe ser número y stock entero."], []) := by
  simp only [on_guardar]
  rw [if_neg (by simp [hn, hc, hp, hs])]
  rcases hbad with hbad | hbad
  · rw [hbad]
  · rcases hpf : pyFloat (pyStrip st.form.precio_var) with _ | pf <;> rw [hbad]

/-- on_guardar on valid input with working storage. -/
theorem on_guardar_valid_ok (st : AppState) (pf : PyFloat) (si : Int)
    (hn : pyStrip st.form.nombre_var ≠ "") (hc : pyStrip st.form.categoria_var ≠ "")
    (hp : pyStrip st.form.precio_var ≠ "") (hs : pyStrip st.form.stock_var ≠ "")
    (hpf : pyFloat (pyStrip st.form.precio_var) = some pf)
    (hsi : pyInt (pyStrip st.form.stock_var) = some si) :
    on_guardar false st =
      (⟨limpiar_form st.form, st.search_var,
          mostrar_todos ⟨st.db.rows ++ [newRow st.db (formData st pf si)], st.db.nextId + 1⟩,
          ⟨st.db.rows ++ [newRow st.db (formData st pf si)], st.db.nextId + 1⟩⟩,
        [Msg.info "Éxito" "Producto guardado correctamente."],
        [StoreCall.insertCall (formData st pf si)]) := by
  simp only [on_guardar]
  rw [if_neg (by simp [hn, hc, hp, hs]), hpf, hsi]
  rfl

/-- on_guardar on valid input with faulted storage. -/
theorem on_guardar_valid_fault (st : AppState) (pf : PyFloat) (si : Int)
    (hn : pyStrip st.form.nombre_var ≠ "") (hc : pyStrip st.form.categoria_var ≠ "")
    (hp : pyStrip st.form.precio_var ≠ "") (hs : pyStrip st.form.stock_var ≠ "")
    (hpf : pyFloat (pyStrip st.form.precio_var) = some pf)
    (hsi : pyInt (pyStrip st.form.stock_var) = some si) :
    on_guardar true st = (st, [], [StoreCall.insertCall (formData st pf si)]) := by
  simp only [on_guardar]
  rw [if_neg (by simp [hn, hc, hp, hs]), hpf, hsi]
  rfl

/-- C6: eliminar_producto returns True whenever the DELETE completes, in
particular when zero rows matched the id; it returns False exactly on a
storage fault; and deleting an id that is not stored leaves the database
unchanged. -/
theorem deleteById_succeeds_even_without_match (producto_id : Nat) (db : DB) :
    (eliminar_producto false producto_id db).1 = true ∧
    (eliminar_producto true producto_id db).1 = false ∧
    (producto_id ∉ db.rows.map Product.id →
      (eliminar_producto false producto_id db).2 = db) := by
  refine ⟨rfl, rfl, fun h => ?_⟩
  have hkeep : db.rows.filter (fun p => p.id != producto_id) = db.rows := by
    apply List.filter_eq_self.mpr
    intro p hp
    have hne : p.id ≠ producto_id := fun e => h (e ▸ List.mem_map_of_mem Product.id hp)
    simpa using hne
  simp [eliminar_producto, hkeep]

/-- C6 witness: deleting id 5 from the empty database succeeds and
changes nothing. -/
theorem deleteById_succeeds_even_without_match_witness :
    (eliminar_producto false 5 init_db).1 = true ∧
    (eliminar_producto true 5 init_db).1 = false ∧
    (eliminar_producto false 5 init_db).2 = init_db :=
  ⟨(deleteById_succeeds_even_without_match 5 init_db).1,
    (deleteById_succeeds_even_without_match 5 init_db).2.1,
    (deleteById_succeeds_even_without_match 5 init_db).2.2 (by decide)⟩

/-- C5 counterexample: a valid submit during a storage fault does call
insert (the call trace is the one insert), yet the handler shows no
messagebox at all — no generic error is surfaced. -/
theorem insert_failure_shows_no_message :
    (on_guardar true stFault5).2.2 =
      [StoreCall.insertCall ⟨"Bolso tejido", "Textil", ⟨80000, 0⟩, 4, 1, "Tejedoras", "Local"⟩] ∧
    (on_guardar true stFault5).2.1 = [] := by
  decide

/-- C5 amended: whenever insertar_producto reports failure, on_guardar
surfaces nothing to the user — it shows neither an error nor a success
message (the fault detail is only printed to the console). -/
theorem insert_failure_is_silent (st : AppState)
    (h : (on_guardar true st).2.2 ≠ []) :
    (on_guardar true st).2.1 = [] := by
  by_cases hE : pyStrip st.form.nombre_var = "" ∨ pyStrip st.form.categoria_var = "" ∨
      pyStrip st.form.precio_var = "" ∨ pyStrip st.form.stock_var = ""
  · rw [on_guardar_empty true st hE] at h
    exact absurd rfl h
  · push_neg at hE
    obtain ⟨hn, hc, hp, hs⟩ := hE
    rcases hpf : pyFloat (pyStrip st.form.precio_var) with _ | pf
    · rw [on_guardar_typefail true st hn hc hp hs (Or.inl hpf)] at h
      exact absurd rfl h
    · rcases hsi : pyInt (pyStrip st.form.stock_var) with _ | si
      · rw [on_guardar_typefail true st hn hc hp hs (Or.inr hsi)] at h
        exact absurd rfl h
      · rw [on_guardar_valid_fault st pf si hn hc hp hs hpf hsi]

/-- C5 amended witness: at the concrete faulted submit, no message is
shown. -/
theorem insert_failure_is_silent_witness :
    (on_guardar true stFault5).2.1 = [] :=
  insert_failure_is_silent stFault5 (by decide)

/-- C10: when insertar_producto reports failure, on_guardar leaves the
whole presentation state unchanged — every form variable keeps the value
the user entered and the tree is not refreshed. -/
theorem insert_failure_preserves_state (st : AppState)
    (h : (on_guardar true st).2.2 ≠ []) :
    (on_guardar true st).1 = st ∧
    (on_guardar true st).1.form = st.form ∧
    (on_guardar true st).1.tree = st.tree := by
  by_cases hE : pyStrip st.form.nombre_var = "" ∨ pyStrip st.form.categoria_var = "" ∨
      pyStrip st.form.precio_var = "" ∨ pyStrip st.form.stock_var = ""
  · rw [on_guardar_empty true st hE] at h
    exact absurd rfl h
  · push_neg at hE
    obtain ⟨hn, hc, hp, hs⟩ := hE
    rcases hpf : pyFloat (pyStrip st.form.precio_var) with _ | pf
    · rw [on_guardar_typefail true st hn hc hp hs (Or.inl hpf)] at h
      exact absurd rfl h
    · rcases hsi : pyInt (pyStrip st.form.stock_var) with _ | si
      · rw [on_guardar_typefail true st hn hc hp hs (Or.inr hsi)] at h
        exact absurd rfl h
      · rw [on_guardar_valid_fault st pf si hn hc hp hs hpf hsi]
        exact ⟨rfl, rfl, rfl⟩

/-- C10 witness: the concrete faulted submit keeps the form values and
the displayed rows exactly as they were. -/
theorem insert_failure_preserves_state_witness :
    (on_guardar true stW10).1 = stW10 ∧
    (on_guardar true stW10).1.form = stW10.form ∧
    (on_guardar true stW10).1.tree = stW10.tree :=
  insert_failure_preserves_state stW10 (by decide)

/-- C9 counterexample: on_guardar accepts and stores a category string
outside the fixed enumerated set — the set is only enforced by the
read-only combobox, not by the handler. -/
theorem submit_stores_category_outside_set :
    ∃ p ∈ (on_guardar false stBadCat).1.db.rows, p.categoria ∉ categorias := by
  decide

/-- C9 amended: on_guardar itself only rejects an empty category; when
the category field holds one of the read-only combobox's values (or is
still empty), every row it stores has its categoria in the fixed set. -/
theorem submit_category_stays_in_widget_set (fault : Bool) (st : AppState)
    (hcat : st.form.categoria_var = "" ∨ st.form.categoria_var ∈ categorias) :
    ∀ p ∈ (on_guardar fault st).1.db.rows, p ∈ st.db.rows ∨ p.categoria ∈ categorias := by
  by_cases hE : pyStrip st.form.nombre_var = "" ∨ pyStrip st.form.categoria_var = "" ∨
      pyStrip st.form.precio_var = "" ∨ pyStrip st.form.stock_var = ""
  · rw [on_guardar_empty fault st hE]
    exact fun p hp => Or.inl hp
  · push_neg at hE
    obtain ⟨hn, hc, hp, hs⟩ := hE
    have hcat' : st.form.categoria_var ∈ categorias := by
      rcases hcat with h | h
      · exact absurd (by rw [h]; rfl) hc
      · exact h
    have hstrip : pyStrip st.form.categoria_var = st.form.categoria_var :=
      pyStrip_mem_categorias hcat'
    rcases hpf : pyFloat (pyStrip st.form.precio_var) with _ | pf
    · rw [on_guardar_typefail fault st hn hc hp hs (Or.inl hpf)]
      exact fun p hp => Or.inl hp
    · rcases hsi : pyInt (pyStrip st.form.stock_var) with _ | si
      · rw [on_guardar_typefail fault st hn hc hp hs (Or.inr hsi)]
        exact fun p hp => Or.inl hp
      · cases fault
        · rw [on_guardar_valid_ok st pf si hn hc hp hs hpf hsi]
          intro p hp'
          rcases List.mem_append.mp hp' with hmem | hmem
          · exact Or.inl hmem
          · rw [List.mem_singleton.mp hmem]
            right
            show pyStrip st.form.categoria_var ∈ categorias
            rw [hstrip]
            exact hcat'
        · rw [on_guardar_valid_fault st pf si hn hc hp hs hpf hsi]
          exact fun p hp => Or.inl hp

/-- C9 amended witness: the row stored by the submit with category
Decoración has its category in the fixed set. -/
theorem submit_category_stays_in_widget_set_witness :
    (⟨1, "Tapete", "Decoración", ⟨30000, 0⟩, 2, 1, "", "Local"⟩ : Product) ∈ stW9.db.rows ∨
      (⟨1, "Tapete", "Decoración", ⟨30000, 0⟩, 2, 1, "", "Local"⟩ : Product).categoria ∈
        categorias :=
  submit_category_stays_in_widget_set false stW9 (by decide)
    ⟨1, "Tapete", "Decoración", ⟨30000, 0⟩, 2, 1, "", "Local"⟩ (by decide)

/-- C7: every display row of the listing renders the stored price with a
point and exactly two fractional digits, and renders availability 1 as
the token Sí and any other stored value (0 in practice) as the token No;
in particular a stored price of 45000 renders as 45000.00. -/
theorem listing_formats_price_and_availability (db : DB) (p : Product)
    (hp : p ∈ consultar_todos db) :
    displayRow p ∈ mostrar_todos db ∧
    (∃ whole frac : String,
      (displayRow p).precio = whole ++ "." ++ frac ∧ frac.length = 2) ∧
    (p.disponible = 1 → (displayRow p).disponible = "Sí") ∧
    (p.disponible ≠ 1 → (displayRow p).disponible = "No") ∧
    format2f ⟨45000, 0⟩ = "45000.00" := by
  refine ⟨List.mem_map_of_mem displayRow hp, ?_, ?_, ?_, by decide⟩
  · exact ⟨(if scaled100 p.precio < 0 then "-" else "") ++
        toString ((scaled100 p.precio).natAbs / 100),
      String.mk [Char.ofNat (48 + ((scaled100 p.precio).natAbs % 100) / 10),
        Char.ofNat (48 + (scaled100 p.precio).natAbs % 10)],
      rfl, rfl⟩
  · intro h
    simp [displayRow, h]
  · intro h
    simp [displayRow, h]

/-- C7 witness: the one-row database renders price 12.5 as 12.50 and
availability 1 as Sí. -/
theorem listing_formats_price_and_availability_witness :
    displayRow pW7 ∈ mostrar_todos dbW7 ∧
    (∃ whole frac : String,
      (displayRow pW7).precio = whole ++ "." ++ frac ∧ frac.length = 2) ∧
    (pW7.disponible = 1 → (displayRow pW7).disponible = "Sí") ∧
    (pW7.disponible ≠ 1 → (displayRow pW7).disponible = "No") ∧
    format2f ⟨45000, 0⟩ = "45000.00" :=
  listing_formats_price_and_availability dbW7 pW7 (by decide)

/-- Filtering stored rows on the name and then building display rows is
the same as building all display rows and filtering on the displayed
name (displayRow keeps the name unchanged). -/
theorem buscar_filter_commutes (q : String) (l : List Product) :
    (l.filter (fun row => pyIn q (pyLower row.nombre))).map displayRow =
      (l.map displayRow).filter (fun r => pyIn q (pyLower r.nombre)) := by
  induction l with
  | nil => rfl
  | cons p t ih =>
    cases h : pyIn q (pyLower p.nombre) with
    | false =>
      have h2 : pyIn q (pyLower (displayRow p).nombre) = false := h
      rw [List.map_cons, List.filter_cons_of_neg (by simp [h]),
        List.filter_cons_of_neg (by simp [h2]), ih]
    | true =>
      have h2 : pyIn q (pyLower (displayRow p).nombre) = true := h
      rw [List.map_cons, List.filter_cons_of_pos (by simp [h]), List.map_cons,
        List.filter_cons_of_pos (by simp [h2]), ih]

/-- C4: on_buscar returns exactly the display rows of the full listing
whose name contains the stripped, lower-cased query as a case-insensitive
substring, in listing order (it is a sublist of the full listing), and
the empty query returns the full listing itself. -/
theorem search_filters_listing_by_name (q : String) (db : DB) :
    on_buscar q db =
      (mostrar_todos db).filter
        (fun r => pyIn (pyLower (pyStrip q)) (pyLower r.nombre)) ∧
    List.Sublist (on_buscar q db) (mostrar_todos db) ∧
    on_buscar "" db = mostrar_todos db := by
  refine ⟨buscar_filter_commutes _ _, ?_, ?_⟩
  · rw [show on_buscar q db =
        (mostrar_todos db).filter
          (fun r => pyIn (pyLower (pyStrip q)) (pyLower r.nombre)) from
      buscar_filter_commutes _ _]
    exact List.filter_sublist _
  · show ((consultar_todos db).filter (fun row => pyIn "" (pyLower row.nombre))).map
        displayRow = (consultar_todos db).map displayRow
    rw [List.filter_eq_self.mpr fun row _ => pyIn_empty (pyLower row.nombre)]

/-- A list of products with pairwise distinct ids splits around the one
row carrying a given stored id, and filtering that id away keeps exactly
the two surrounding segments. -/
theorem remove_id_of_nodup (l : List Product) (i : Nat)
    (hnd : (l.map Product.id).Nodup) (hi : i ∈ l.map Product.id) :
    ∃ l1 p l2, l = l1 ++ p :: l2 ∧ p.id = i ∧
      (∀ q ∈ l1, q.id ≠ i) ∧ (∀ q ∈ l2, q.id ≠ i) ∧
      l.filter (fun q => q.id != i) = l1 ++ l2 := by
  induction l with
  | nil => simp at hi
  | cons a t ih =>
    rw [List.map_cons, List.nodup_cons] at hnd
    by_cases hai : a.id = i
    · refine ⟨[], a, t, rfl, hai, by simp, ?_, ?_⟩
      · intro q hq he
        exact hnd.1 (by rw [hai, ← he]; exact List.mem_map_of_mem Product.id hq)
      · rw [List.filter_cons_of_neg (by simp [hai]), List.nil_append]
        apply List.filter_eq_self.mpr
        intro q hq
        have : q.id ≠ i := fun he =>
          hnd.1 (by rw [hai, ← he]; exact List.mem_map_of_mem Product.id hq)
        simpa using this
    · have hit : i ∈ t.map Product.id := by
        rcases List.mem_cons.mp hi with h | h
        · exact absurd h.symm hai
        · exact h
      obtain ⟨l1, p, l2, he, hpi, h1, h2, hf⟩ := ih hnd.2 hit
      refine ⟨a :: l1, p, l2, by rw [he, List.cons_append], hpi, ?_, h2, ?_⟩
      · intro q hq
        rcases List.mem_cons.mp hq with h | h
        · exact h ▸ hai
        · exact h1 q h
      · rw [List.filter_cons_of_pos (by simpa using hai), hf, List.cons_append]

/-- C2: on a store whose ids are pairwise distinct, deleting a stored id
succeeds and removes exactly the one row carrying it: the listing before
splits as l1, the row, l2, every row of l1 and l2 carries a different id,
and the listing after is l1 followed by l2 — the same rows in the same
relative order. -/
theorem delete_removes_exactly_one_row (db : DB) (i : Nat)
    (hInv : dbInv db) (hi : i ∈ (consultar_todos db).map Product.id) :
    (eliminar_producto false i db).1 = true ∧
    ∃ l1 p l2, consultar_todos db = l1 ++ p :: l2 ∧ p.id = i ∧
      (∀ q ∈ l1, q.id ≠ i) ∧ (∀ q ∈ l2, q.id ≠ i) ∧
      consultar_todos (eliminar_producto false i db).2 = l1 ++ l2 := by
  refine ⟨rfl, ?_⟩
  obtain ⟨l1, p, l2, he, hpi, h1, h2, hf⟩ := remove_id_of_nodup db.rows i hInv.1 hi
  exact ⟨l1, p, l2, he, hpi, h1, h2, hf⟩

/-- C2 witness: deleting id 1 from the two-row database keeps exactly
the row with id 2. -/
theorem delete_removes_exactly_one_row_witness :
    (eliminar_producto false 1 dbW2).1 = true ∧
    ∃ l1 p l2, consultar_todos dbW2 = l1 ++ p :: l2 ∧ p.id = 1 ∧
      (∀ q ∈ l1, q.id ≠ 1) ∧ (∀ q ∈ l2, q.id ≠ 1) ∧
      consultar_todos (eliminar_producto false 1 dbW2).2 = l1 ++ l2 :=
  delete_removes_exactly_one_row dbW2 1 (by unfold dbInv; decide) (by decide)

/-- C1: a valid submit refreshes the listing to the old listing plus one
new display row; the stored table gains exactly the row built from the
stripped and converted form input; and the freshly assigned id differs
from every id already stored. -/
theorem submit_then_refresh_adds_one_row (st : AppState) (pf : PyFloat) (si : Int)
    (hInv : dbInv st.db)
    (hn : pyStrip st.form.nombre_var ≠ "") (hc : pyStrip st.form.categoria_var ≠ "")
    (hp : pyStrip st.form.precio_var ≠ "") (hs : pyStrip st.form.stock_var ≠ "")
    (hpf : pyFloat (pyStrip st.form.precio_var) = some pf)
    (hsi : pyInt (pyStrip st.form.stock_var) = some si) :
    (on_guardar false st).1.tree =
      mostrar_todos st.db ++ [displayRow (newRow st.db (formData st pf si))] ∧
    (on_guardar false st).1.tree.length = (mostrar_todos st.db).length + 1 ∧
    consultar_todos (on_guardar false st).1.db =
      consultar_todos st.db ++ [newRow st.db (formData st pf si)] ∧
    (newRow st.db (formData st pf si)).id ∉ (consultar_todos st.db).map Product.id := by
  have h1 : (on_guardar false st).1.tree =
      mostrar_todos st.db ++ [displayRow (newRow st.db (formData st pf si))] := by
    rw [on_guardar_valid_ok st pf si hn hc hp hs hpf hsi]
    show mostrar_todos
        ⟨st.db.rows ++ [newRow st.db (formData st pf si)], st.db.nextId + 1⟩ = _
    simp [mostrar_todos, consultar_todos]
  refine ⟨h1, ?_, ?_, ?_⟩
  · rw [h1]
    simp
  · rw [on_guardar_valid_ok st pf si hn hc hp hs hpf hsi]
    rfl
  · intro hmem
    obtain ⟨p, hp', he⟩ := List.mem_map.mp hmem
    have hlt := hInv.2 p hp'
    have heq : p.id = st.db.nextId := he
    omega

/-- C1 witness: submitting the collar form over the empty database
yields the one-row listing with the converted fields under id 1. -/
theorem submit_then_refresh_adds_one_row_witness :
    (on_guardar false stW1).1.tree =
      mostrar_todos stW1.db ++ [displayRow (newRow stW1.db (formData stW1 ⟨45000, 0⟩ 10))] ∧
    (on_guardar false stW1).1.tree.length = (mostrar_todos stW1.db).length + 1 ∧
    consultar_todos (on_guardar false stW1).1.db =
      consultar_todos stW1.db ++ [newRow stW1.db (formData stW1 ⟨45000, 0⟩ 10)] ∧
    (newRow stW1.db (formData stW1 ⟨45000, 0⟩ 10)).id ∉
      (consultar_todos stW1.db).map Product.id :=
  submit_then_refresh_adds_one_row stW1 ⟨45000, 0⟩ 10 (by unfold dbInv; decide)
    (by decide) (by decide) (by decide) (by decide) (by decide) (by decide)

/-- C3: on_guardar calls the store's insert exactly when, after
stripping, the four required fields are non-empty and price parses as a
float and stock parses as an integer; an empty required field produces
the validation warning with no store call, and a failed conversion
produces the distinct type error with no store call. -/
theorem submit_calls_insert_iff_valid (fault : Bool) (st : AppState) :
    ((∃ d, StoreCall.insertCall d ∈ (on_guardar fault st).2.2) ↔
      (pyStrip st.form.nombre_var ≠ "" ∧ pyStrip st.form.categoria_var ≠ "" ∧
        pyStrip st.form.precio_var ≠ "" ∧ pyStrip st.form.stock_var ≠ "" ∧
        (pyFloat (pyStrip st.form.precio_var)).isSome ∧
        (pyInt (pyStrip st.form.stock_var)).isSome)) ∧
    ((pyStrip st.form.nombre_var = "" ∨ pyStrip st.form.categoria_var = "" ∨
        pyStrip st.form.precio_var = "" ∨ pyStrip st.form.stock_var = "") →
      (on_guardar fault st).2.1 =
          [Msg.warning "Validación" "Por favor complete los campos obligatorios."] ∧
        (on_guardar fault st).2.2 = []) ∧
    ((pyStrip st.form.nombre_var ≠ "" ∧ pyStrip st.form.categoria_var ≠ "" ∧
        pyStrip st.form.precio_var ≠ "" ∧ pyStrip st.form.stock_var ≠ "" ∧
        (pyFloat (pyStrip st.form.precio_var) = none ∨
          pyInt (pyStrip st.form.stock_var) = none)) →
      (on_guardar fault st).2.1 =
          [Msg.error "Error" "Precio debe ser número y stock entero."] ∧
        (on_guardar fault st).2.2 = []) := by
  refine ⟨⟨?_, ?_⟩, ?_, ?_⟩
  · rintro ⟨d, hd⟩
    by_cases hE : pyStrip st.form.nombre_var = "" ∨ pyStrip st.form.categoria_var = "" ∨
        pyStrip st.form.precio_var = "" ∨ pyStrip st.form.stock_var = ""
    · rw [on_guardar_empty fault st hE] at hd
      simp at hd
    · push_neg at hE
      obtain ⟨hn, hc, hp, hs⟩ := hE
      rcases hpf : pyFloat (pyStrip st.form.precio_var) with _ | pf
      · rw [on_guardar_typefail fault st hn hc hp hs (Or.inl hpf)] at hd
        simp at hd
      · rcases hsi : pyInt (pyStrip st.form.stock_var) with _ | si
        · rw [on_guardar_typefail fault st hn hc hp hs (Or.inr hsi)] at hd
          simp at hd
        · exact ⟨hn, hc, hp, hs, rfl, rfl⟩
  · rintro ⟨hn, hc, hp, hs, hpf, hsi⟩
    obtain ⟨pf, hpf'⟩ := Option.isSome_iff_exists.mp hpf
    obtain ⟨si, hsi'⟩ := Option.isSome_iff_exists.mp hsi
    cases fault
    · rw [on_guardar_valid_ok st pf si hn hc hp hs hpf' hsi']
      exact ⟨formData st pf si, by simp⟩
    · rw [on_guardar_valid_fault st pf si hn hc hp hs hpf' hsi']
      exact ⟨formData st pf si, by simp⟩
  · intro hE
    rw [on_guardar_empty fault st hE]
    exact ⟨rfl, rfl⟩
  · rintro ⟨hn, hc, hp, hs, hbad⟩
    rw [on_guardar_typefail fault st hn hc hp hs hbad]
    exact ⟨rfl, rfl⟩

/-- C3 witness: the theorem instantiated at the form whose price text is
abc: no insert call is made and the type error is shown. -/
theorem submit_calls_insert_iff_valid_witness :
    ((∃ d, StoreCall.insertCall d ∈ (on_guardar false stW3).2.2) ↔
      (pyStrip stW3.form.nombre_var ≠ "" ∧ pyStrip stW3.form.categoria_var ≠ "" ∧
        pyStrip stW3.form.precio_var ≠ "" ∧ pyStrip stW3.form.stock_var ≠ "" ∧
        (pyFloat (pyStrip stW3.form.precio_var)).isSome ∧
        (pyInt (pyStrip stW3.form.stock_var)).isSome)) ∧
    ((pyStrip stW3.form.nombre_var = "" ∨ pyStrip stW3.form.categoria_var = "" ∨
        pyStrip stW3.form.precio_var = "" ∨ pyStrip stW3.form.stock_var = "") →
      (on_guardar false stW3).2.1 =
          [Msg.warning "Validación" "Por favor complete los campos obligatorios."] ∧
        (on_guardar false stW3).2.2 = []) ∧
    ((pyStrip stW3.form.nombre_var ≠ "" ∧ pyStrip stW3.form.categoria_var ≠ "" ∧
        pyStrip stW3.form.precio_var ≠ "" ∧ pyStrip stW3.form.stock_var ≠ "" ∧
        (pyFloat (pyStrip stW3.form.precio_var) = none ∨
          pyInt (pyStrip stW3.form.stock_var) = none)) →
      (on_guardar false stW3).2.1 =
          [Msg.error "Error" "Precio debe ser número y stock entero."] ∧
        (on_guardar false stW3).2.2 = []) :=
  submit_calls_insert_iff_valid false stW3

/-- C8: with working storage, whenever a handler actually called the
store (its call trace is non-empty — the mutation succeeded, since the
storage is not faulted), the resulting tree is the full re-listing of the
resulting database: no filter is re-applied after a mutation. -/
theorem mutations_return_listing_to_full (st : AppState) (sel : Option DisplayRow)
    (confirm : Bool) :
    ((on_guardar false st).2.2 ≠ [] →
      (on_guardar false st).1.tree = mostrar_todos (on_guardar false st).1.db) ∧
    ((on_eliminar false sel confirm st).2.2 ≠ [] →
      (on_eliminar false sel confirm st).1.tree =
        mostrar_todos (on_eliminar false sel confirm st).1.db) := by
  constructor
  · intro h
    by_cases hE : pyStrip st.form.nombre_var = "" ∨ pyStrip st.form.categoria_var = "" ∨
        pyStrip st.form.precio_var = "" ∨ pyStrip st.form.stock_var = ""
    · rw [on_guardar_empty false st hE] at h
      exact absurd rfl h
    · push_neg at hE
      obtain ⟨hn, hc, hp, hs⟩ := hE
      rcases hpf : pyFloat (pyStrip st.form.precio_var) with _ | pf
      · rw [on_guardar_typefail false st hn hc hp hs (Or.inl hpf)] at h
        exact absurd rfl h
      · rcases hsi : pyInt (pyStrip st.form.stock_var) with _ | si
        · rw [on_guardar_typefail false st hn hc hp hs (Or.inr hsi)] at h
          exact absurd rfl h
        · rw [on_guardar_valid_ok st pf si hn hc hp hs hpf hsi]
  · intro h
    cases sel with
    | none => exact absurd rfl h
    | some item =>
      cases confirm with
      | false => exact absurd rfl h
      | true => rfl

/-- C8 witness: after the concrete insert and the concrete delete the
tree equals the full listing of the new database. -/
theorem mutations_return_listing_to_full_witness :
    (on_guardar false stW8).1.tree = mostrar_todos (on_guardar false stW8).1.db ∧
    (on_eliminar false (some rowW8) true stW8).1.tree =
      mostrar_todos (on_eliminar false (some rowW8) true stW8).1.db :=
  ⟨(mutations_return_listing_to_full stW8 (some rowW8) true).1 (by decide),
    (mutations_return_listing_to_full stW8 (some rowW8) true).2 (by decide)⟩
